import Mathlib

/-!
Shallow embedding of the webhook-relay delivery pipeline
(`src/webhook_relay/common/models.py`, `src/webhook_relay/common/queue.py`,
`src/webhook_relay/collector/routes.py`, `src/webhook_relay/forwarder/client.py`).

Modelling conventions:
* JSON-compatible Python values are the inductive `Json`; Python dicts appear as
  association lists in insertion order.
* `datetime` fields are represented by their `isoformat()` rendering (a
  `String`) in the model structures.  Pydantic's python-mode `model_dump()`
  keeps them as `datetime` objects — modelled by `PyValue.datetime` — which
  stdlib `json.dumps` cannot serialize (`TypeError`); only the JSON-mode
  rendering (`model_dump_json`, honoring the `json_encoders` configuration in
  `models.py`) produces the ISO8601 strings of the documented wire format.
* Python truthiness of an `Optional[str]` (`if not x:`) is `strTruthy`:
  both `None` and the empty string are falsy.
* The cloud backends (Pub/Sub publisher/subscriber, the boto3 SQS client) are
  external collaborators; one call to them is modelled by an explicit outcome
  value given as an argument (success payload or a raised-exception marker).
* `hmac.new(secret, body, sha256).hexdigest()` is a Python stdlib call; the
  verifier is parameterized over the digest function `hmacSha256Hex`.
-/

/-- A JSON value, as produced by `json.loads` / consumed by `json.dumps`.
Numbers are modelled as integers (no claim depends on float semantics);
objects are association lists in insertion order. -/
inductive Json where
  | null : Json
  | bool (b : Bool) : Json
  | num (n : Int) : Json
  | str (s : String) : Json
  | arr (elems : List Json) : Json
  | obj (fields : List (String × Json)) : Json

/-- Field lookup in a JSON object (first binding wins), `none` on non-objects. -/
def Json.getField : Json → String → Option Json
  | .obj fields, k => (fields.find? (fun kv => kv.1 == k)).map (fun kv => kv.2)
  | _, _ => none

/-- `str.lower()` on ASCII header names, written over the character list so
that concrete instances evaluate by kernel reduction. -/
def lowerString (s : String) : String :=
  ⟨s.data.map Char.toLower⟩

/-- Python truthiness of an `Optional[str]`: `None` and `""` are falsy. -/
def strTruthy : Option String → Bool
  | none => false
  | some s => !s.isEmpty

/-- `models.WebhookMetadata`: source name, receipt timestamp (ISO8601 string on
the wire), optional signature, snapshot of the request headers. -/
structure WebhookMetadata where
  source : String
  received_at : String
  signature : Option String
  headers : List (String × String)
deriving Repr, DecidableEq

/-- `models.WebhookPayload`: metadata plus the parsed JSON body
(`content: Dict[str, Any]`, hence an object). -/
structure WebhookPayload where
  metadata : WebhookMetadata
  content : List (String × Json)

/-- `models.QueueMessage`: the envelope published on the queue. -/
structure QueueMessage where
  id : String
  payload : WebhookPayload
  created_at : String
  attempts : Int

/-- `WebhookMetadata` in pydantic's JSON-mode rendering (`model_dump_json`,
honoring the `json_encoders` datetime-to-isoformat configuration of
`models.py`): the documented wire envelope.  The python-mode `model_dump()`
actually invoked by `send_message` is `model_dump_py` below. -/
def WebhookMetadata.model_dump_json (m : WebhookMetadata) : Json :=
  .obj [("source", .str m.source),
        ("received_at", .str m.received_at),
        ("signature", match m.signature with | none => .null | some s => .str s),
        ("headers", .obj (m.headers.map (fun kv => (kv.1, .str kv.2))))]

/-- `WebhookPayload` in JSON-mode rendering. -/
def WebhookPayload.model_dump_json (p : WebhookPayload) : Json :=
  .obj [("metadata", p.metadata.model_dump_json), ("content", .obj p.content)]

/-- `QueueMessage` in JSON-mode rendering: the documented queue wire envelope,
which the repository's tests say should be produced with `model_dump_json`. -/
def QueueMessage.model_dump_json (m : QueueMessage) : Json :=
  .obj [("id", .str m.id),
        ("payload", m.payload.model_dump_json),
        ("created_at", .str m.created_at),
        ("attempts", .num m.attempts)]

/-- A Python value as returned by pydantic's python-mode `model_dump()`:
either a `datetime` object (which stdlib `json.dumps` cannot serialize), a
string, `None`, a nested dict, or a JSON-pure value (one containing no
`datetime` anywhere, e.g. anything that came out of `json.loads`). -/
inductive PyValue where
  | null : PyValue
  | str (s : String) : PyValue
  | datetime (iso : String) : PyValue
  | jsonVal (j : Json) : PyValue
  | obj (fields : List (String × PyValue)) : PyValue

mutual
/-- Stdlib `json.dumps` on a Python value: the JSON value it serializes to,
or `none` for the `TypeError` raised on a `datetime` anywhere in the tree
("Object of type datetime is not JSON serializable"). -/
def json_dumps : PyValue → Option Json
  | .null => some .null
  | .str s => some (.str s)
  | .datetime _ => none
  | .jsonVal j => some j
  | .obj fields => (json_dumps_fields fields).map Json.obj

/-- `json.dumps` over the fields of a dict, left to right: the first
unserializable value raises. -/
def json_dumps_fields : List (String × PyValue) → Option (List (String × Json))
  | [] => some []
  | (k, v) :: rest =>
    match json_dumps v with
    | none => none
    | some jv =>
      match json_dumps_fields rest with
      | none => none
      | some jrest => some ((k, jv) :: jrest)
end

/-- `WebhookMetadata.model_dump()` in python mode (the call made by both
`send_message` implementations): `received_at` stays a `datetime` object —
the deprecated `json_encoders` configuration applies only to JSON-mode
serialization. -/
def WebhookMetadata.model_dump_py (m : WebhookMetadata) : PyValue :=
  .obj [("source", .str m.source),
        ("received_at", .datetime m.received_at),
        ("signature", match m.signature with | none => .null | some s => .str s),
        ("headers", .obj (m.headers.map (fun kv => (kv.1, PyValue.str kv.2))))]

/-- `WebhookPayload.model_dump()` in python mode; `content` came from
`json.loads` and is JSON-pure. -/
def WebhookPayload.model_dump_py (p : WebhookPayload) : PyValue :=
  .obj [("metadata", p.metadata.model_dump_py), ("content", .jsonVal (.obj p.content))]

/-- `QueueMessage.model_dump()` in python mode, the object handed to
`json.dumps` at `queue.py:57` and `queue.py:164`: `created_at` (and the
nested `received_at`) stay `datetime` objects. -/
def QueueMessage.model_dump_py (m : QueueMessage) : PyValue :=
  .obj [("id", .str m.id),
        ("payload", m.payload.model_dump_py),
        ("created_at", .datetime m.created_at),
        ("attempts", .jsonVal (.num m.attempts))]

/-- Extract a JSON string. -/
def Json.asString : Json → Option String
  | .str s => some s
  | _ => none

/-- Extract a JSON integer. -/
def Json.asInt : Json → Option Int
  | .num n => some n
  | _ => none

/-- Extract the bindings of a JSON object. -/
def Json.asObj : Json → Option (List (String × Json))
  | .obj fields => some fields
  | _ => none

/-- Validate a `Dict[str, str]` (every value must be a string). -/
def parseStringDict : List (String × Json) → Option (List (String × String))
  | [] => some []
  | (k, .str v) :: rest => (parseStringDict rest).map (fun r => (k, v) :: r)
  | _ => none

/-- Pydantic validation of `WebhookMetadata` from a JSON value: `source` is
required, `signature` defaults to null, `headers` defaults to `{}`.  The
`received_at` timestamp is always present on the wire and is modelled as
required (its Python default is an impure fresh-timestamp factory). -/
def WebhookMetadata.model_validate (j : Json) : Option WebhookMetadata := do
  let source ← (j.getField "source").bind Json.asString
  let received_at ← (j.getField "received_at").bind Json.asString
  let signature ← match j.getField "signature" with
    | none => some none
    | some .null => some none
    | some (.str s) => some (some s)
    | some _ => none
  let headers ← match j.getField "headers" with
    | none => some []
    | some (.obj fields) => parseStringDict fields
    | some _ => none
  return ⟨source, received_at, signature, headers⟩

/-- Pydantic validation of `WebhookPayload`: both fields required, `content`
must be an object. -/
def WebhookPayload.model_validate (j : Json) : Option WebhookPayload := do
  let metadata ← (j.getField "metadata").bind WebhookMetadata.model_validate
  let content ← (j.getField "content").bind Json.asObj
  return ⟨metadata, content⟩

/-- Pydantic validation of `QueueMessage` from a parsed wire value, as invoked
by both `receive_message` implementations: `id` and `payload` required,
`attempts` defaults to 0. -/
def QueueMessage.model_validate (j : Json) : Option QueueMessage := do
  let id ← (j.getField "id").bind Json.asString
  let payload ← (j.getField "payload").bind WebhookPayload.model_validate
  let created_at ← (j.getField "created_at").bind Json.asString
  let attempts ← match j.getField "attempts" with
    | none => some 0
    | some a => a.asInt
  return ⟨id, payload, created_at, attempts⟩

/-- One message as handed over by the Pub/Sub pull response: the payload bytes
(already decoded and `json.loads`-parsed; `none` marks bytes that fail to
decode/parse, which raises inside the `try` block) and the ack id. -/
structure PubSubRawMessage where
  data : Option Json
  ack_id : String

/-- Result of one `subscriber.pull` call: the received-messages list, or a
raised transport exception. -/
inductive PullOutcome where
  | resp (received_messages : List PubSubRawMessage)
  | raised

/-- Result of one backend publish / acknowledge / delete call. -/
inductive BackendOutcome where
  | ok
  | raised

/-- A `QueueMessage` returned by `receive_message`, with the backend token the
implementation attaches to it via `setattr` (`_ack_id` for Pub/Sub,
`_receipt_handle` for SQS).  The token is optional because `delete_message`
re-reads it with `getattr(message, ..., None)`. -/
structure ReceivedMessage where
  msg : QueueMessage
  token : Option String

/-- State of a `GCPPubSubClient`: whether a subscription is configured, and the
`_current_message` attribute read by `delete_message` — which no method of the
class ever assigns (it stays at its `getattr` default `None` unless set from
outside, as the unit tests do with `setattr`). -/
structure GCPPubSubClient where
  subscriberConfigured : Bool
  currentMessage : Option ReceivedMessage

/-- Exceptions escaping a `send_message` call: the `TypeError` raised by
`json.dumps` on the python-mode dump (before the `try` block), or the
re-raised backend publish/send exception. -/
inductive SendError where
  | typeError : SendError
  | backendRaised : SendError
deriving Repr, DecidableEq

/-- `GCPPubSubClient.send_message`: generates a fresh uuid, wraps the payload
in a `QueueMessage`, and serializes it with
`json.dumps(queue_message.model_dump())` (`queue.py:57`, outside the `try`):
a `TypeError` there propagates uncaught.  Only if serialization succeeds is
the publish attempted; publish success returns the generated id, a publish
failure is logged and re-raised.  The serialized envelope is returned
alongside so theorems can inspect what was published. -/
def GCPPubSubClient.send_message (genId now : String) (payload : WebhookPayload)
    (publish : BackendOutcome) : Except SendError (Json × String) :=
  let queue_message : QueueMessage := ⟨genId, payload, now, 0⟩
  match json_dumps queue_message.model_dump_py with
  | none => .error .typeError
  | some data =>
    match publish with
    | .ok => .ok (data, genId)
    | .raised => .error .backendRaised

/-- `GCPPubSubClient.receive_message`: raises `RuntimeError` if no subscription
is configured; otherwise pulls one message.  An empty pull returns `None`; any
exception (transport failure, undecodable body, validation error) is caught and
also returns `None`.  On success the attempt counter is incremented and the ack
id attached.  Note `_current_message` is never assigned. -/
def GCPPubSubClient.receive_message (st : GCPPubSubClient) (pull : PullOutcome) :
    Except Unit (GCPPubSubClient × Option ReceivedMessage) :=
  if !st.subscriberConfigured then .error ()
  else
    match pull with
    | .raised => .ok (st, none)
    | .resp [] => .ok (st, none)
    | .resp (received :: _) =>
      match received.data with
      | none => .ok (st, none)
      | some j =>
        match QueueMessage.model_validate j with
        | none => .ok (st, none)
        | some qm =>
          .ok (st, some ⟨{ qm with attempts := qm.attempts + 1 }, some received.ack_id⟩)

/-- `GCPPubSubClient.delete_message`: raises `RuntimeError` if no subscription
is configured; otherwise reads `getattr(self, "_current_message", None)`,
returns `False` if it is absent or its id mismatches or it has no `_ack_id`,
acknowledges otherwise; an acknowledge exception is caught and yields
`False`. -/
def GCPPubSubClient.delete_message (st : GCPPubSubClient) (message_id : String)
    (ack : BackendOutcome) : Except Unit Bool :=
  if !st.subscriberConfigured then .error ()
  else
    match st.currentMessage with
    | none => .ok false
    | some message =>
      if message.msg.id != message_id then .ok false
      else
        match message.token with
        | none => .ok false
        | some _ =>
          match ack with
          | .ok => .ok true
          | .raised => .ok false

/-- Reachable `GCPPubSubClient` states: the constructor state (with
`_current_message` unset, i.e. `none`), closed under `receive_message` — the
only implemented mutator.  `delete_message` does not modify the state. -/
inductive GCPPubSubClient.Reachable : GCPPubSubClient → Prop where
  | init (configured : Bool) : GCPPubSubClient.Reachable ⟨configured, none⟩
  | recv {st st' : GCPPubSubClient} {pull : PullOutcome} {m : Option ReceivedMessage}
      (h : GCPPubSubClient.Reachable st)
      (hstep : st.receive_message pull = .ok (st', m)) : GCPPubSubClient.Reachable st'

/-- The SQS `send_message` response, carrying the backend-assigned MessageId. -/
structure SQSSendResponse where
  MessageId : String

/-- One raw message of an SQS `receive_message` response. -/
structure SQSRawMessage where
  ReceiptHandle : String
  Body : Option Json

/-- Result of one `sqs.receive_message` call: the `Messages` list (empty when
the key is absent), or a raised transport exception. -/
inductive SQSReceiveOutcome where
  | resp (messages : List SQSRawMessage)
  | raised

/-- State of an `AWSSQSClient`: `_current_receipt_handle` (assigned by
`receive_message`) and the `_current_message` attribute read by
`delete_message` — never assigned by any method of the class. -/
structure AWSSQSClient where
  currentReceiptHandle : Option String
  currentMessage : Option ReceivedMessage

/-- `AWSSQSClient.send_message`: generates a fresh uuid, wraps, and serializes
with `json.dumps(queue_message.model_dump())` (`queue.py:164`, outside the
`try`): a `TypeError` there propagates uncaught.  Only if serialization
succeeds is the SQS send attempted; on success it returns
`response["MessageId"]` — the id assigned by the SQS backend, not the
generated envelope id — and a send failure is logged and re-raised. -/
def AWSSQSClient.send_message (genId now : String) (payload : WebhookPayload)
    (send : Option SQSSendResponse) : Except SendError (Json × String) :=
  let queue_message : QueueMessage := ⟨genId, payload, now, 0⟩
  match json_dumps queue_message.model_dump_py with
  | none => .error .typeError
  | some message_body =>
    match send with
    | some response => .ok (message_body, response.MessageId)
    | none => .error .backendRaised

/-- `AWSSQSClient.receive_message`: an empty `Messages` list returns `None`;
any exception (transport, body parse, validation) is caught and also returns
`None`.  On success the attempt counter is incremented, the receipt handle is
saved in `_current_receipt_handle` and attached to the message.  Note
`_current_message` is never assigned. -/
def AWSSQSClient.receive_message (st : AWSSQSClient) (recv : SQSReceiveOutcome) :
    AWSSQSClient × Option ReceivedMessage :=
  match recv with
  | .raised => (st, none)
  | .resp [] => (st, none)
  | .resp (message :: _) =>
    match message.Body with
    | none => (st, none)
    | some j =>
      match QueueMessage.model_validate j with
      | none => (st, none)
      | some qm =>
        ({ st with currentReceiptHandle := some message.ReceiptHandle },
         some ⟨{ qm with attempts := qm.attempts + 1 }, some message.ReceiptHandle⟩)

/-- `AWSSQSClient.delete_message`: reads `getattr(self, "_current_message",
None)`, returns `False` if it is absent or its id mismatches or it carries no
`_receipt_handle`; otherwise calls the backend delete, whose exception is
caught and yields `False`.  The whole body is inside `try/except`, so the call
never raises. -/
def AWSSQSClient.delete_message (st : AWSSQSClient) (message_id : String)
    (del : BackendOutcome) : Bool :=
  match st.currentMessage with
  | none => false
  | some message =>
    if message.msg.id != message_id then false
    else
      match message.token with
      | none => false
      | some _ =>
        match del with
        | .ok => true
        | .raised => false

/-- Reachable `AWSSQSClient` states: the constructor state (which sets
`_current_receipt_handle = None` and leaves `_current_message` unset), closed
under `receive_message`.  `delete_message` does not modify the state. -/
inductive AWSSQSClient.Reachable : AWSSQSClient → Prop where
  | init : AWSSQSClient.Reachable ⟨none, none⟩
  | recv {st : AWSSQSClient} {recv : SQSReceiveOutcome}
      (h : AWSSQSClient.Reachable st) :
      AWSSQSClient.Reachable (st.receive_message recv).1

/-- Outcome of one `session.post` to the forward target: a response with a
status code, or a raised transport exception (both count as one attempt). -/
inductive AttemptOutcome where
  | status (code : Nat)
  | raised

/-- An attempt outcome that takes the failure path of the loop body:
status `>= 400`, or an exception. -/
def AttemptOutcome.isFailure : AttemptOutcome → Bool
  | .status code => decide (400 ≤ code)
  | .raised => true

/-- Observable trace of `WebhookForwarder.forward_webhook`: the returned
success flag, how many POST attempts were made, and the backoff sleep
durations in order. -/
structure ForwardTrace where
  success : Bool
  posts : Nat
  sleeps : List Nat

/-- The retry loop body of `forward_webhook`
(`for attempt in range(self.retry_attempts): ...`), with `remaining` the
number of loop iterations left and `backoff` the current backoff value.
A status `< 400` returns `True` immediately; otherwise, if this is not the
last attempt (`attempt < retry_attempts - 1`), sleep `backoff`, double it and
continue; after the last attempt the loop falls through to `return False`. -/
def WebhookForwarder.forwardLoop (responses : Nat → AttemptOutcome)
    (attempt remaining backoff : Nat) : ForwardTrace :=
  match remaining with
  | 0 => ⟨false, 0, []⟩
  | r + 1 =>
    if (responses attempt).isFailure then
      match r with
      | 0 => ⟨false, 1, []⟩
      | _ + 1 =>
        let rest := WebhookForwarder.forwardLoop responses (attempt + 1) r (backoff * 2)
        ⟨rest.success, rest.posts + 1, backoff :: rest.sleeps⟩
    else ⟨true, 1, []⟩

/-- `WebhookForwarder.forward_webhook`, abstracted over the target's responses
(`responses n` is the outcome of the `n`-th POST): runs the retry loop with
`retry_attempts` iterations starting from `backoff = retry_delay`. -/
def WebhookForwarder.forward_webhook (responses : Nat → AttemptOutcome)
    (retry_attempts retry_delay : Nat) : ForwardTrace :=
  WebhookForwarder.forwardLoop responses 0 retry_attempts retry_delay

/-- Observable trace of `WebhookForwarder.process_message`: the returned flag,
whether `delete_message` was invoked, and whether the successful-deletion
branch (`if deleted:`) was taken. -/
structure ProcessTrace where
  success : Bool
  deleteCalled : Bool
  deleteSucceeded : Bool

/-- `WebhookForwarder.process_message`: forwards, and only on forward success
calls `queue_client.delete_message(message.id)`, whose boolean result selects
the acknowledged/failed-to-delete branch. -/
def WebhookForwarder.process_message (forwardSuccess : Bool)
    (deleteResult : Bool) : ProcessTrace :=
  if forwardSuccess then ⟨true, true, deleteResult⟩ else ⟨false, false, false⟩

/-- `headers[k] = v` on a Python dict kept as an insertion-ordered association
list: overwrite the first (only) binding in place, else append. -/
def dictSet (l : List (String × String)) (k v : String) : List (String × String) :=
  match l with
  | [] => [(k, v)]
  | (k0, v0) :: rest =>
    if k0 == k then (k0, v) :: rest else (k0, v0) :: dictSet rest k v

/-- The header-merge loop of `forward_webhook`: add each original inbound
header whose lowercased name is not already present (case-insensitively) among
the headers collected so far; configured headers are never overridden. -/
def mergeInboundHeaders (headers inbound : List (String × String)) :
    List (String × String) :=
  inbound.foldl
    (fun acc kv =>
      if acc.any (fun h => lowerString h.1 == lowerString kv.1) then acc
      else acc ++ [kv])
    headers

/-- The outbound header construction of `forward_webhook`: configured headers,
merged inbound headers, then `X-Webhook-Relay-Source`, `X-Webhook-Relay-ID`,
and — only when `payload.metadata.signature` is truthy —
`X-Webhook-Relay-Signature` carrying the stored signature value. -/
def WebhookForwarder.buildHeaders (configured : List (String × String))
    (message : QueueMessage) : List (String × String) :=
  let hs := mergeInboundHeaders configured message.payload.metadata.headers
  let hs := dictSet hs "X-Webhook-Relay-Source" message.payload.metadata.source
  let hs := dictSet hs "X-Webhook-Relay-ID" message.id
  match message.payload.metadata.signature with
  | some s => if s.isEmpty then hs else dictSet hs "X-Webhook-Relay-Signature" s
  | none => hs

/-- `config.WebhookSourceConfig`: a named source with optional shared secret
and optional signature header name. -/
structure WebhookSourceConfig where
  name : String
  secret : Option String
  signature_header : Option String

/-- The part of `config.CollectorConfig` the route reads. -/
structure CollectorConfig where
  webhook_sources : List WebhookSourceConfig

/-- An inbound HTTP request as the route sees it: the header multimap, the raw
body bytes, and the result of `json.loads(body)` (`none` models a
`JSONDecodeError`; `WebhookPayload.content` is `Dict[str, Any]`, so a decoded
body is an object). -/
structure Request where
  headers : List (String × String)
  body : List Nat
  bodyJson : Option (List (String × Json))

/-- `request.headers.get(name)`: Starlette header lookup is
case-insensitive; first match wins. -/
def Request.headerGet (req : Request) (name : String) : Option String :=
  (req.headers.find? (fun kv => lowerString kv.1 == lowerString name)).map (fun kv => kv.2)

/-- An `HTTPException(status_code, detail)`. -/
structure HTTPException where
  status_code : Nat
  detail : String
deriving Repr, DecidableEq

/-- The source lookup of `validate_webhook_signature`:
`next((src for src in config.webhook_sources if src.name == source), None)`. -/
def findWebhookSource (config : CollectorConfig) (source : String) :
    Option WebhookSourceConfig :=
  config.webhook_sources.find? (fun src => src.name == source)

/-- `routes.validate_webhook_signature`, parameterized over the stdlib HMAC
digest (`hmacSha256Hex secret body` is
`hmac.new(secret.encode(), body, hashlib.sha256).hexdigest()`):
404 for an unknown source; verification skipped when secret or header name is
not truthy; 400 when the named header is missing (or empty, which is equally
falsy); 401 unless the header equals `"sha256=" + digest` (the constant-time
`hmac.compare_digest` is semantically string equality). -/
def validate_webhook_signature (hmacSha256Hex : String → List Nat → String)
    (config : CollectorConfig) (source : String) (req : Request) :
    Except HTTPException Bool :=
  match findWebhookSource config source with
  | none => .error ⟨404, "Unknown webhook source: " ++ source⟩
  | some webhook_source =>
    if !strTruthy webhook_source.secret || !strTruthy webhook_source.signature_header then
      .ok true
    else
      let headerName := webhook_source.signature_header.getD ""
      let expected_signature := req.headerGet headerName
      if !strTruthy expected_signature then
        .error ⟨400, "Missing signature header: " ++ headerName⟩
      else
        let digest := hmacSha256Hex (webhook_source.secret.getD "") req.body
        let calculated_signature := "sha256=" ++ digest
        if calculated_signature == expected_signature.getD "" then .ok true
        else .error ⟨401, "Invalid signature"⟩

/-- The HTTP outcome of `receive_webhook`, plus the payloads passed to
`queue_client.send_message` (in call order), so theorems can speak about what
was published and how many times publish was invoked. -/
structure RouteOutcome where
  status : Nat
  message_id : Option String
  detail : Option String
  published : List WebhookPayload

/-- `routes.receive_webhook`, with `now` the ingestion timestamp and
`sendResult` the outcome of the (single) `send_message` call — `some id` for a
successful publish returning `id`, `none` for a raised publish error (mapped
to 500).  Order of checks as in the source: signature validation (404/400/401),
JSON body parse (400), then enqueue (202/500).  The metadata's signature field
is read from the hardcoded header `X-Hub-Signature-256`. -/
def receive_webhook (hmacSha256Hex : String → List Nat → String)
    (config : CollectorConfig) (sendResult : Option String)
    (source : String) (req : Request) (now : String) : RouteOutcome :=
  match validate_webhook_signature hmacSha256Hex config source req with
  | .error e => ⟨e.status_code, none, some e.detail, []⟩
  | .ok _ =>
    match req.bodyJson with
    | none => ⟨400, none, some "Invalid JSON payload", []⟩
    | some content =>
      let metadata : WebhookMetadata :=
        ⟨source, now, req.headerGet "X-Hub-Signature-256", req.headers⟩
      let payload : WebhookPayload := ⟨metadata, content⟩
      match sendResult with
      | some message_id => ⟨202, some message_id, none, [payload]⟩
      | none => ⟨500, none, some "Failed to queue webhook", [payload]⟩

/-- A concrete digest function standing in for the stdlib HMAC-SHA256 in
concrete evaluations. -/
def hmacDemo : String → List Nat → String := fun _ _ => "ab"

/-- Sample metadata mirroring the repository's test fixtures. -/
def sampleMetadata : WebhookMetadata :=
  ⟨"github", "2023-01-01T00:00:00", some "sha256=abc123", [("X-GitHub-Event", "push")]⟩

/-- Sample payload mirroring the repository's test fixtures. -/
def samplePayload : WebhookPayload :=
  ⟨sampleMetadata, [("event", Json.str "test")]⟩

/-- Sample queue message mirroring the repository's test fixtures. -/
def sampleMessage : QueueMessage :=
  ⟨"test-message-id", samplePayload, "2023-01-01T00:00:00", 0⟩

/-- A collector configuration with one source using a non-GitHub signature
header, as in the repository's `gitlab` fixture. -/
def cfgGitlab : CollectorConfig :=
  ⟨[⟨"gitlab", some "test-secret", some "X-Gitlab-Token"⟩]⟩

/-- A request carrying a valid signature in the configured `X-Gitlab-Token`
header (valid with respect to `hmacDemo`). -/
def reqGitlab : Request :=
  ⟨[("X-Gitlab-Token", "sha256=ab")], [1, 2], some [("a", Json.num 1)]⟩

/-- A request whose configured signature header is present but empty. -/
def reqGitlabEmptySig : Request :=
  ⟨[("X-Gitlab-Token", "")], [3], some []⟩

/-- A collector configuration with the `github` source of the repository's
fixtures. -/
def cfgGithub : CollectorConfig :=
  ⟨[⟨"github", some "test-secret", some "X-Hub-Signature-256"⟩]⟩

/-- A request whose `X-Hub-Signature-256` header is present but empty. -/
def reqGithubEmptySig : Request :=
  ⟨[("X-Hub-Signature-256", "")], [7], some [("test", Json.str "data")]⟩

theorem parseStringDict_dump (hs : List (String × String)) :
    parseStringDict (hs.map (fun kv => (kv.1, Json.str kv.2))) = some hs := by
  induction hs with
  | nil => rfl
  | cons kv rest ih => cases kv; simp [parseStringDict, ih]

theorem WebhookMetadata.validate_dump_meta (m : WebhookMetadata) :
    WebhookMetadata.model_validate m.model_dump_json = some m := by
  cases m with
  | mk source received_at signature headers =>
    cases signature <;>
      simp [WebhookMetadata.model_validate, WebhookMetadata.model_dump_json,
        Json.getField, List.find?, Json.asString, parseStringDict_dump,
        Option.bind, bind]

theorem WebhookPayload.validate_dump_payload (p : WebhookPayload) :
    WebhookPayload.model_validate p.model_dump_json = some p := by
  cases p with
  | mk metadata content =>
    simp [WebhookPayload.model_validate, WebhookPayload.model_dump_json,
      Json.getField, List.find?, Json.asObj, Option.bind, bind,
      WebhookMetadata.validate_dump_meta]

theorem QueueMessage.validate_dump_msg (m : QueueMessage) :
    QueueMessage.model_validate m.model_dump_json = some m := by
  cases m with
  | mk id payload created_at attempts =>
    simp [QueueMessage.model_validate, QueueMessage.model_dump_json,
      Json.getField, List.find?, Json.asString, Json.asInt, Option.bind, bind,
      WebhookPayload.validate_dump_payload]

theorem AWSSQSClient.receive_preserves_current (st : AWSSQSClient)
    (recv : SQSReceiveOutcome) :
    ((st.receive_message recv).1).currentMessage = st.currentMessage := by
  unfold AWSSQSClient.receive_message
  repeat' split
  all_goals rfl

theorem AWSSQSClient.reachable_no_current_aws {st : AWSSQSClient}
    (h : AWSSQSClient.Reachable st) : st.currentMessage = none := by
  induction h with
  | init => rfl
  | recv _ ih => rw [AWSSQSClient.receive_preserves_current]; assumption

theorem AWSSQSClient.delete_no_current_aws {st : AWSSQSClient}
    (h : st.currentMessage = none) (message_id : String) (del : BackendOutcome) :
    st.delete_message message_id del = false := by
  unfold AWSSQSClient.delete_message
  rw [h]

theorem GCPPubSubClient.receive_preserves_state {st st' : GCPPubSubClient}
    {pull : PullOutcome} {m : Option ReceivedMessage}
    (h : st.receive_message pull = .ok (st', m)) : st' = st := by
  unfold GCPPubSubClient.receive_message at h
  repeat' split at h
  all_goals simp_all

theorem GCPPubSubClient.reachable_no_current_gcp {st : GCPPubSubClient}
    (h : GCPPubSubClient.Reachable st) : st.currentMessage = none := by
  induction h with
  | init => rfl
  | recv _ hstep ih =>
    rename_i st0 st1 pull m
    rw [GCPPubSubClient.receive_preserves_state hstep]
    assumption

theorem GCPPubSubClient.delete_no_current_gcp {st : GCPPubSubClient}
    (hc : st.subscriberConfigured = true) (h : st.currentMessage = none)
    (message_id : String) (ack : BackendOutcome) :
    st.delete_message message_id ack = .ok false := by
  unfold GCPPubSubClient.delete_message
  rw [hc, h]
  rfl

theorem GCPPubSubClient.delete_never_ok_true {st : GCPPubSubClient}
    (h : st.currentMessage = none) (message_id : String) (ack : BackendOutcome) :
    st.delete_message message_id ack ≠ .ok true := by
  unfold GCPPubSubClient.delete_message
  rw [h]
  by_cases hc : st.subscriberConfigured = true <;> simp [hc]

theorem validate_unknown_source (hmacSha256Hex : String → List Nat → String)
    (config : CollectorConfig) (source : String) (req : Request)
    (hfind : findWebhookSource config source = none) :
    validate_webhook_signature hmacSha256Hex config source req
      = .error ⟨404, "Unknown webhook source: " ++ source⟩ := by
  unfold validate_webhook_signature
  rw [hfind]

theorem validate_skip (hmacSha256Hex : String → List Nat → String)
    (config : CollectorConfig) (source : String) (req : Request)
    (ws : WebhookSourceConfig)
    (hfind : findWebhookSource config source = some ws)
    (hskip : strTruthy ws.secret = false ∨ strTruthy ws.signature_header = false) :
    validate_webhook_signature hmacSha256Hex config source req = .ok true := by
  unfold validate_webhook_signature
  rw [hfind]
  rcases hskip with h | h <;> simp [h]

theorem validate_missing (hmacSha256Hex : String → List Nat → String)
    (config : CollectorConfig) (source : String) (req : Request)
    (ws : WebhookSourceConfig)
    (hfind : findWebhookSource config source = some ws)
    (hsec : strTruthy ws.secret = true)
    (hhdr : strTruthy ws.signature_header = true)
    (hmiss : strTruthy (req.headerGet (ws.signature_header.getD "")) = false) :
    validate_webhook_signature hmacSha256Hex config source req
      = .error ⟨400, "Missing signature header: " ++ ws.signature_header.getD ""⟩ := by
  unfold validate_webhook_signature
  rw [hfind]
  simp [hsec, hhdr, hmiss]

theorem strTruthy_some_ne {v : String} (hvne : v ≠ "") : strTruthy (some v) = true := by
  simp only [strTruthy, Bool.not_eq_true']
  cases hE : v.isEmpty
  · rfl
  · exact absurd ((String.isEmpty_iff v).mp hE) hvne

theorem validate_present (hmacSha256Hex : String → List Nat → String)
    (config : CollectorConfig) (source : String) (req : Request)
    (ws : WebhookSourceConfig) (v : String)
    (hfind : findWebhookSource config source = some ws)
    (hsec : strTruthy ws.secret = true)
    (hhdr : strTruthy ws.signature_header = true)
    (hv : req.headerGet (ws.signature_header.getD "") = some v)
    (hvne : v ≠ "") :
    validate_webhook_signature hmacSha256Hex config source req
      = if "sha256=" ++ hmacSha256Hex (ws.secret.getD "") req.body = v
          then .ok true else .error ⟨401, "Invalid signature"⟩ := by
  unfold validate_webhook_signature
  rw [hfind]
  simp [hsec, hhdr, hv, strTruthy_some_ne hvne]

theorem receive_webhook_validate_error (hmacSha256Hex : String → List Nat → String)
    (config : CollectorConfig) (sendResult : Option String)
    (source : String) (req : Request) (now : String) (e : HTTPException)
    (hval : validate_webhook_signature hmacSha256Hex config source req = .error e) :
    receive_webhook hmacSha256Hex config sendResult source req now
      = ⟨e.status_code, none, some e.detail, []⟩ := by
  unfold receive_webhook
  rw [hval]

theorem receive_webhook_bad_json (hmacSha256Hex : String → List Nat → String)
    (config : CollectorConfig) (sendResult : Option String)
    (source : String) (req : Request) (now : String) (b : Bool)
    (hval : validate_webhook_signature hmacSha256Hex config source req = .ok b)
    (hbody : req.bodyJson = none) :
    receive_webhook hmacSha256Hex config sendResult source req now
      = ⟨400, none, some "Invalid JSON payload", []⟩ := by
  unfold receive_webhook
  rw [hval, hbody]

theorem receive_webhook_enqueue (hmacSha256Hex : String → List Nat → String)
    (config : CollectorConfig) (sendResult : Option String)
    (source : String) (req : Request) (now : String) (b : Bool)
    (content : List (String × Json))
    (hval : validate_webhook_signature hmacSha256Hex config source req = .ok b)
    (hbody : req.bodyJson = some content) :
    receive_webhook hmacSha256Hex config sendResult source req now
      = match sendResult with
        | some message_id =>
          ⟨202, some message_id, none,
           [⟨⟨source, now, req.headerGet "X-Hub-Signature-256", req.headers⟩, content⟩]⟩
        | none =>
          ⟨500, none, some "Failed to queue webhook",
           [⟨⟨source, now, req.headerGet "X-Hub-Signature-256", req.headers⟩, content⟩]⟩ := by
  unfold receive_webhook
  rw [hval, hbody]

theorem forwardLoop_all_fail (responses : Nat → AttemptOutcome)
    (h : ∀ n, (responses n).isFailure = true) (remaining : Nat) :
    ∀ attempt backoff : Nat,
      (WebhookForwarder.forwardLoop responses attempt remaining backoff).success = false ∧
      (WebhookForwarder.forwardLoop responses attempt remaining backoff).posts = remaining ∧
      (WebhookForwarder.forwardLoop responses attempt remaining backoff).sleeps
        = (List.range (remaining - 1)).map (fun i => backoff * 2 ^ i) := by
  induction remaining with
  | zero =>
    intro attempt backoff
    simp [WebhookForwarder.forwardLoop]
  | succ r ih =>
    intro attempt backoff
    unfold WebhookForwarder.forwardLoop
    rw [h attempt]
    match r with
    | 0 => simp
    | r' + 1 =>
      obtain ⟨ihs, ihp, ihb⟩ := ih (attempt + 1) (backoff * 2)
      refine ⟨by simpa using ihs, by simpa using ihp, ?_⟩
      simp only [ihb]
      have hr : (r' + 1 + 1 - 1) = r' + 1 := rfl
      rw [hr, List.range_succ_eq_map, List.map_cons, List.map_map]
      have h0 : backoff * 2 ^ 0 = backoff := by ring
      have hf : ((fun i => backoff * 2 ^ i) ∘ (· + 1))
          = fun i => backoff * 2 * 2 ^ i := by
        funext i
        simp [Function.comp, pow_succ]
        ring
      rw [h0, hf]
      simp

theorem mem_dictSet_self (l : List (String × String)) (k v : String) :
    (k, v) ∈ dictSet l k v := by
  induction l with
  | nil => simp [dictSet]
  | cons kv rest ih =>
    obtain ⟨k0, v0⟩ := kv
    by_cases hk : (k0 == k) = true
    · have : k0 = k := eq_of_beq hk
      subst this
      simp [dictSet]
    · simp only [dictSet, hk, if_false]
      exact List.mem_cons_of_mem _ ih

theorem mem_dictSet (l : List (String × String)) (k v : String)
    (kv' : String × String) (h : kv' ∈ dictSet l k v) :
    kv'.1 = k ∨ kv' ∈ l := by
  induction l with
  | nil =>
    simp [dictSet] at h
    subst h
    exact Or.inl rfl
  | cons kv rest ih =>
    obtain ⟨k0, v0⟩ := kv
    by_cases hk : (k0 == k) = true
    · simp only [dictSet, hk, if_true] at h
      rcases List.mem_cons.mp h with h | h
      · subst h
        exact Or.inl (eq_of_beq hk)
      · exact Or.inr (List.mem_cons_of_mem _ h)
    · simp only [dictSet, hk, if_false] at h
      rcases List.mem_cons.mp h with h | h
      · subst h
        exact Or.inr (List.mem_cons_self _ _)
      · rcases ih h with h | h
        · exact Or.inl h
        · exact Or.inr (List.mem_cons_of_mem _ h)

theorem mem_mergeInboundHeaders (inbound hs : List (String × String))
    (kv' : String × String) (h : kv' ∈ mergeInboundHeaders hs inbound) :
    kv' ∈ hs ∨ kv' ∈ inbound := by
  induction inbound generalizing hs with
  | nil => exact Or.inl h
  | cons kv rest ih =>
    unfold mergeInboundHeaders at h ih
    rw [List.foldl_cons] at h
    rcases ih _ h with h' | h'
    · by_cases hc : hs.any (fun h0 => lowerString h0.1 == lowerString kv.1) = true
      · rw [if_pos hc] at h'
        exact Or.inl h'
      · rw [if_neg hc] at h'
        rcases List.mem_append.mp h' with h'' | h''
        · exact Or.inl h''
        · simp at h''
          subst h''
          exact Or.inr (List.mem_cons_self _ _)
    · exact Or.inr (List.mem_cons_of_mem _ h')

theorem json_dumps_metadata_py (m : WebhookMetadata) :
    json_dumps m.model_dump_py = none := rfl

theorem json_dumps_payload_py (p : WebhookPayload) :
    json_dumps p.model_dump_py = none := rfl

theorem json_dumps_queue_py (m : QueueMessage) :
    json_dumps m.model_dump_py = none := rfl

/-- Claim C1 (code bug): no call to either queue send operation ever
succeeds — for every payload and every backend behavior,
`json.dumps(queue_message.model_dump())` (`queue.py:57`, `queue.py:164`, both
outside the `try`) raises `TypeError`, because the python-mode `model_dump()`
keeps the `created_at`/`received_at` datetime fields and the `json_encoders`
configuration applies only to JSON-mode serialization.  The claim's
"successful call" premise is therefore never satisfiable: the publish is
never reached and no id is ever returned.  (The repository's own tests call
for `model_dump_json` instead; note also that even under that intended fix,
`AWSSQSClient.send_message` returns the backend-assigned
`response["MessageId"]` — asserted by its own unit test — rather than the
generated envelope id.) -/
theorem c1_send_never_succeeds (genId now : String) (payload : WebhookPayload)
    (publish : BackendOutcome) (send : Option SQSSendResponse) :
    GCPPubSubClient.send_message genId now payload publish = .error .typeError ∧
    AWSSQSClient.send_message genId now payload send = .error .typeError :=
  ⟨rfl, rfl⟩

/-- Claim C2: in every client state reachable through the implemented
`receive_message`/`delete_message` sequence, `delete_message` returns `False`
(for Pub/Sub, never `.ok true`), because neither client ever assigns the
`_current_message` attribute that `delete_message` reads; consequently the
successful-deletion branch of the Forwarder's `process_message`
(`if deleted:`) is never taken. -/
theorem c2_delete_never_acknowledges (stA : AWSSQSClient) (stG : GCPPubSubClient)
    (hA : AWSSQSClient.Reachable stA) (hG : GCPPubSubClient.Reachable stG)
    (message_id : String) (del ack : BackendOutcome) (forwardSuccess : Bool) :
    stA.delete_message message_id del = false ∧
    stG.delete_message message_id ack ≠ .ok true ∧
    (WebhookForwarder.process_message forwardSuccess
        (stA.delete_message message_id del)).deleteSucceeded = false ∧
    (∀ b, stG.delete_message message_id ack = .ok b →
      (WebhookForwarder.process_message forwardSuccess b).deleteSucceeded = false) := by
  have hA' := AWSSQSClient.reachable_no_current_aws hA
  have hG' := GCPPubSubClient.reachable_no_current_gcp hG
  have hdelA := AWSSQSClient.delete_no_current_aws hA' message_id del
  refine ⟨hdelA, GCPPubSubClient.delete_never_ok_true hG' message_id ack, ?_, ?_⟩
  · rw [hdelA]
    cases forwardSuccess <;> rfl
  · intro b hb
    have hbf : b = false := by
      cases b
      · rfl
      · exact absurd hb (GCPPubSubClient.delete_never_ok_true hG' message_id ack)
    subst hbf
    cases forwardSuccess <;> rfl

/-- Witness for C2 at the constructor states of both clients. -/
theorem c2_delete_never_acknowledges_witness :
    AWSSQSClient.delete_message ⟨none, none⟩ "test-message-id" .ok = false ∧
    GCPPubSubClient.delete_message ⟨true, none⟩ "test-message-id" .ok ≠ .ok true ∧
    (WebhookForwarder.process_message true
        (AWSSQSClient.delete_message ⟨none, none⟩ "test-message-id" .ok)).deleteSucceeded
      = false :=
  ⟨(c2_delete_never_acknowledges ⟨none, none⟩ ⟨true, none⟩ .init (.init true)
      "test-message-id" .ok .ok true).1,
   (c2_delete_never_acknowledges ⟨none, none⟩ ⟨true, none⟩ .init (.init true)
      "test-message-id" .ok .ok true).2.1,
   (c2_delete_never_acknowledges ⟨none, none⟩ ⟨true, none⟩ .init (.init true)
      "test-message-id" .ok .ok true).2.2.1⟩

/-- Claim C3, counterexample: at a concrete backend/transport failure both
`receive_message` implementations catch the exception and return `None`
(`.ok (st, none)` for Pub/Sub, `(st, none)` for SQS) — no `QueueReceiveError`
is raised (no such exception type exists in the code base), so a transport
failure is indistinguishable from an empty queue for the caller. -/
theorem c3_counterexample :
    AWSSQSClient.receive_message ⟨none, none⟩ .raised = (⟨none, none⟩, none) ∧
    GCPPubSubClient.receive_message ⟨true, none⟩ .raised = .ok (⟨true, none⟩, none) :=
  ⟨rfl, rfl⟩

/-- Claim C3 (amended): an empty queue makes `receive_message` return `None`
(not an error), and a backend/transport failure also makes it return `None`
(the exception is caught and logged) — it does not raise; the two cases are
not distinguishable by the caller. -/
theorem c3_amended (stA : AWSSQSClient) (stG : GCPPubSubClient)
    (hG : stG.subscriberConfigured = true) :
    stA.receive_message (.resp []) = (stA, none) ∧
    stA.receive_message .raised = (stA, none) ∧
    stG.receive_message (.resp []) = .ok (stG, none) ∧
    stG.receive_message .raised = .ok (stG, none) := by
  refine ⟨rfl, rfl, ?_, ?_⟩ <;> simp [GCPPubSubClient.receive_message, hG]

/-- Witness for C3 (amended) at the constructor states. -/
theorem c3_amended_witness :
    AWSSQSClient.receive_message ⟨none, none⟩ (.resp []) = (⟨none, none⟩, none) ∧
    AWSSQSClient.receive_message ⟨none, none⟩ .raised = (⟨none, none⟩, none) ∧
    GCPPubSubClient.receive_message ⟨true, none⟩ (.resp []) = .ok (⟨true, none⟩, none) ∧
    GCPPubSubClient.receive_message ⟨true, none⟩ .raised = .ok (⟨true, none⟩, none) :=
  c3_amended ⟨none, none⟩ ⟨true, none⟩ rfl

/-- Claim C4, counterexample: with a matching current message and receipt
token checked out, a backend/transport failure during the deletion call is
caught and `delete_message` returns `False` (`.ok false` for Pub/Sub) instead
of raising — so a `False` return does not distinguish "nothing to delete"
from a transport failure. -/
theorem c4_counterexample :
    AWSSQSClient.delete_message
        ⟨some "test-receipt-handle", some ⟨sampleMessage, some "test-receipt-handle"⟩⟩
        "test-message-id" .raised = false ∧
    GCPPubSubClient.delete_message
        ⟨true, some ⟨sampleMessage, some "test-ack-id"⟩⟩
        "test-message-id" .raised = .ok false :=
  ⟨rfl, rfl⟩

/-- Claim C4 (amended): `delete_message` returns `False` without raising both
when no matching un-acknowledged receipt exists for the id and when the
backend deletion call fails (the exception is caught); the two failure modes
are therefore not distinguishable from the return value. -/
theorem c4_amended (stA : AWSSQSClient) (stG : GCPPubSubClient)
    (message_id : String) (hGc : stG.subscriberConfigured = true) :
    (stA.currentMessage = none → ∀ del, stA.delete_message message_id del = false) ∧
    stA.delete_message message_id .raised = false ∧
    (stG.currentMessage = none → ∀ ack, stG.delete_message message_id ack = .ok false) ∧
    stG.delete_message message_id .raised = .ok false := by
  refine ⟨?_, ?_, ?_, ?_⟩
  · intro h del
    exact AWSSQSClient.delete_no_current_aws h message_id del
  · unfold AWSSQSClient.delete_message
    repeat' split
    all_goals simp_all
  · intro h ack
    exact GCPPubSubClient.delete_no_current_gcp hGc h message_id ack
  · unfold GCPPubSubClient.delete_message
    simp only [hGc, Bool.not_true, Bool.false_eq_true, if_false]
    repeat' split
    all_goals simp_all

/-- Witness for C4 (amended) at concrete checked-out states. -/
theorem c4_amended_witness :
    AWSSQSClient.delete_message
        ⟨some "rh-2", some ⟨sampleMessage, some "rh-2"⟩⟩ "test-message-id" .raised
      = false ∧
    GCPPubSubClient.delete_message
        ⟨true, some ⟨sampleMessage, some "ack-2"⟩⟩ "test-message-id" .raised
      = .ok false :=
  ⟨(c4_amended ⟨some "rh-2", some ⟨sampleMessage, some "rh-2"⟩⟩
      ⟨true, some ⟨sampleMessage, some "ack-2"⟩⟩ "test-message-id" rfl).2.1,
   (c4_amended ⟨some "rh-2", some ⟨sampleMessage, some "rh-2"⟩⟩
      ⟨true, some ⟨sampleMessage, some "ack-2"⟩⟩ "test-message-id" rfl).2.2.2⟩

/-- Claim C5, counterexample: for the `gitlab` source (secret and signature
header configured), a request carrying the configured signature header with
the empty string as value is rejected with 400 "Missing signature header",
not 401 — the empty value is falsy in Python and takes the missing-header
branch, although it is a present signature-header value different from
`sha256=<digest>`. -/
theorem c5_counterexample :
    validate_webhook_signature hmacDemo cfgGitlab "gitlab" reqGitlabEmptySig
      = .error ⟨400, "Missing signature header: X-Gitlab-Token"⟩ ∧
    reqGitlabEmptySig.headerGet "X-Gitlab-Token" = some "" ∧
    ("" : String) ≠ "sha256=" ++ hmacDemo "test-secret" reqGitlabEmptySig.body :=
  ⟨rfl, by decide, by decide⟩

/-- Claim C5 (amended): for a source configured with a truthy secret and
signature header name, a request whose signature header value is non-empty and
equals `"sha256=" + HMAC_SHA256(secret, body)` is accepted; any other
non-empty value is rejected with 401; a missing — or present but empty —
header value yields 400 instead; for a source without a secret or without a
header name, verification is skipped and the request accepted regardless of
headers. -/
theorem c5_amended (hmacSha256Hex : String → List Nat → String)
    (config : CollectorConfig) (source : String) (req : Request)
    (ws : WebhookSourceConfig)
    (hfind : findWebhookSource config source = some ws) :
    ((strTruthy ws.secret = false ∨ strTruthy ws.signature_header = false) →
      validate_webhook_signature hmacSha256Hex config source req = .ok true) ∧
    (∀ secret hdr, ws.secret = some secret → ws.signature_header = some hdr →
      secret ≠ "" → hdr ≠ "" →
      (((req.headerGet hdr = none ∨ req.headerGet hdr = some "") →
        validate_webhook_signature hmacSha256Hex config source req
          = .error ⟨400, "Missing signature header: " ++ hdr⟩) ∧
      (∀ v, req.headerGet hdr = some v → v ≠ "" →
        (v = "sha256=" ++ hmacSha256Hex secret req.body →
          validate_webhook_signature hmacSha256Hex config source req = .ok true) ∧
        (v ≠ "sha256=" ++ hmacSha256Hex secret req.body →
          validate_webhook_signature hmacSha256Hex config source req
            = .error ⟨401, "Invalid signature"⟩)))) := by
  constructor
  · intro h
    exact validate_skip _ _ _ _ _ hfind h
  · intro secret hdr hsec hhdr hsecne hhdrne
    have hsect : strTruthy ws.secret = true := by
      rw [hsec]; exact strTruthy_some_ne hsecne
    have hhdrt : strTruthy ws.signature_header = true := by
      rw [hhdr]; exact strTruthy_some_ne hhdrne
    have hgetD : ws.signature_header.getD "" = hdr := by rw [hhdr]; rfl
    have hsecD : ws.secret.getD "" = secret := by rw [hsec]; rfl
    constructor
    · intro hmiss
      have hfalse : strTruthy (req.headerGet (ws.signature_header.getD "")) = false := by
        rw [hgetD]
        rcases hmiss with h | h <;> rw [h] <;> rfl
      have hres := validate_missing hmacSha256Hex config source req ws hfind hsect hhdrt hfalse
      rw [hgetD] at hres
      exact hres
    · intro v hv hvne
      have hpres := validate_present hmacSha256Hex config source req ws v hfind hsect hhdrt
        (by rw [hgetD]; exact hv) hvne
      rw [hsecD] at hpres
      constructor
      · intro heq
        rw [hpres, if_pos heq.symm]
      · intro hne
        rw [hpres, if_neg (fun hh => hne hh.symm)]

/-- Witness for C5 (amended): the `gitlab` request with a valid signature in
the configured header is accepted. -/
theorem c5_amended_witness :
    validate_webhook_signature hmacDemo cfgGitlab "gitlab" reqGitlab = .ok true :=
  (((c5_amended hmacDemo cfgGitlab "gitlab" reqGitlab
        ⟨"gitlab", some "test-secret", some "X-Gitlab-Token"⟩ rfl).2
      "test-secret" "X-Gitlab-Token" rfl rfl (by decide) (by decide)).2
      "sha256=ab" (by decide) (by decide)).1 (by decide)

/-- Claim C6, counterexample: for the `github` source, a request whose
`X-Hub-Signature-256` header is present but empty gets response 400
("Missing signature header"), although under the claimed order the header is
not missing and the (non-verifying) signature should yield 401. -/
theorem c6_counterexample :
    receive_webhook hmacDemo cfgGithub (some "id-1") "github" reqGithubEmptySig
        "2023-01-01T00:00:00"
      = ⟨400, none, some "Missing signature header: X-Hub-Signature-256", []⟩ ∧
    reqGithubEmptySig.headerGet "X-Hub-Signature-256" = some "" ∧
    ("" : String) ≠ "sha256=" ++ hmacDemo "test-secret" reqGithubEmptySig.body :=
  ⟨rfl, by decide, by decide⟩

/-- Claim C6 (amended): the Collector's response is determined in order —
404 for an unknown source; 400 when the source requires a signature and the
named header is missing or present-but-empty; 401 when a non-empty header
value does not verify; 400 for an invalid JSON body; 202 with the queue-
returned message id on successful enqueue; 500 when the publish raises; and
the publish is invoked at most once (no internal retry). -/
theorem c6_amended (hmacSha256Hex : String → List Nat → String)
    (config : CollectorConfig) (sendResult : Option String)
    (source : String) (req : Request) (now : String) :
    (findWebhookSource config source = none →
      receive_webhook hmacSha256Hex config sendResult source req now
        = ⟨404, none, some ("Unknown webhook source: " ++ source), []⟩) ∧
    (∀ ws secret hdr, findWebhookSource config source = some ws →
      ws.secret = some secret → ws.signature_header = some hdr →
      secret ≠ "" → hdr ≠ "" →
      (((req.headerGet hdr = none ∨ req.headerGet hdr = some "") →
        receive_webhook hmacSha256Hex config sendResult source req now
          = ⟨400, none, some ("Missing signature header: " ++ hdr), []⟩) ∧
      (∀ v, req.headerGet hdr = some v → v ≠ "" →
        v ≠ "sha256=" ++ hmacSha256Hex secret req.body →
        receive_webhook hmacSha256Hex config sendResult source req now
          = ⟨401, none, some "Invalid signature", []⟩))) ∧
    (∀ b, validate_webhook_signature hmacSha256Hex config source req = .ok b →
      ((req.bodyJson = none →
        receive_webhook hmacSha256Hex config sendResult source req now
          = ⟨400, none, some "Invalid JSON payload", []⟩) ∧
      (∀ content, req.bodyJson = some content →
        (∀ message_id, sendResult = some message_id →
          receive_webhook hmacSha256Hex config sendResult source req now
            = ⟨202, some message_id, none,
               [⟨⟨source, now, req.headerGet "X-Hub-Signature-256", req.headers⟩,
                 content⟩]⟩) ∧
        (sendResult = none →
          receive_webhook hmacSha256Hex config sendResult source req now
            = ⟨500, none, some "Failed to queue webhook",
               [⟨⟨source, now, req.headerGet "X-Hub-Signature-256", req.headers⟩,
                 content⟩]⟩)))) ∧
    (receive_webhook hmacSha256Hex config sendResult source req now).published.length ≤ 1 := by
  refine ⟨?_, ?_, ?_, ?_⟩
  · intro hfind
    exact receive_webhook_validate_error _ _ _ _ _ _ _
      (validate_unknown_source _ _ _ _ hfind)
  · intro ws secret hdr hfind hsec hhdr hsecne hhdrne
    have hsect : strTruthy ws.secret = true := by
      rw [hsec]; exact strTruthy_some_ne hsecne
    have hhdrt : strTruthy ws.signature_header = true := by
      rw [hhdr]; exact strTruthy_some_ne hhdrne
    have hgetD : ws.signature_header.getD "" = hdr := by rw [hhdr]; rfl
    have hsecD : ws.secret.getD "" = secret := by rw [hsec]; rfl
    constructor
    · intro hmiss
      have hfalse : strTruthy (req.headerGet (ws.signature_header.getD "")) = false := by
        rw [hgetD]
        rcases hmiss with h | h <;> rw [h] <;> rfl
      have hres := validate_missing hmacSha256Hex config source req ws hfind hsect hhdrt hfalse
      rw [hgetD] at hres
      exact receive_webhook_validate_error _ _ _ _ _ _ _ hres
    · intro v hv hvne hvbad
      have hpres := validate_present hmacSha256Hex config source req ws v hfind hsect hhdrt
        (by rw [hgetD]; exact hv) hvne
      rw [hsecD, if_neg (fun hh => hvbad hh.symm)] at hpres
      exact receive_webhook_validate_error _ _ _ _ _ _ _ hpres
  · intro b hval
    constructor
    · intro hbody
      exact receive_webhook_bad_json _ _ _ _ _ _ _ hval hbody
    · intro content hbody
      have henq := receive_webhook_enqueue hmacSha256Hex config sendResult source req now b
        content hval hbody
      constructor
      · intro message_id hsend
        rw [hsend]
        rw [hsend] at henq
        exact henq
      · intro hsend
        rw [hsend]
        rw [hsend] at henq
        exact henq
  · unfold receive_webhook
    repeat' split
    all_goals simp

/-- Witness for C6 (amended): a valid `gitlab` request is accepted with the
queue-assigned id and exactly one published payload. -/
theorem c6_amended_witness :
    receive_webhook hmacDemo cfgGitlab (some "id-7") "gitlab" reqGitlab "2023-01-01T00:00:00"
      = ⟨202, some "id-7", none,
         [⟨⟨"gitlab", "2023-01-01T00:00:00", reqGitlab.headerGet "X-Hub-Signature-256",
            reqGitlab.headers⟩, [("a", Json.num 1)]⟩]⟩ :=
  (((c6_amended hmacDemo cfgGitlab (some "id-7") "gitlab" reqGitlab
        "2023-01-01T00:00:00").2.2.1 true rfl).2 [("a", Json.num 1)] rfl).1 "id-7" rfl

/-- Claim C7: with `retry_attempts = N` (N ≥ 1) and a target answering 500 on
every attempt, `forward_webhook` performs exactly N POST attempts and reports
failure, and `process_message` never invokes `delete_message`. -/
theorem c7_retry_exhaustion (N D : Nat) (hN : 1 ≤ N)
    (responses : Nat → AttemptOutcome)
    (hfail : ∀ n, responses n = .status 500) (deleteResult : Bool) :
    (WebhookForwarder.forward_webhook responses N D).posts = N ∧
    (WebhookForwarder.forward_webhook responses N D).success = false ∧
    (WebhookForwarder.process_message
        (WebhookForwarder.forward_webhook responses N D).success
        deleteResult).deleteCalled = false := by
  have hf : ∀ n, (responses n).isFailure = true := by
    intro n
    rw [hfail n]
    rfl
  obtain ⟨hs, hp, _⟩ := forwardLoop_all_fail responses hf N 0 D
  have hs' : (WebhookForwarder.forward_webhook responses N D).success = false := hs
  have hp' : (WebhookForwarder.forward_webhook responses N D).posts = N := hp
  refine ⟨hp', hs', ?_⟩
  rw [hs']
  rfl

/-- Witness for C7 at `retry_attempts = 3`, base delay 5. -/
theorem c7_retry_exhaustion_witness :
    (WebhookForwarder.forward_webhook (fun _ => .status 500) 3 5).posts = 3 ∧
    (WebhookForwarder.forward_webhook (fun _ => .status 500) 3 5).success = false ∧
    (WebhookForwarder.process_message
        (WebhookForwarder.forward_webhook (fun _ => .status 500) 3 5).success
        true).deleteCalled = false :=
  c7_retry_exhaustion 3 5 (by decide) (fun _ => .status 500) (fun _ => rfl) true

/-- Claim C8: when every delivery attempt fails, the backoff sleeps performed
between successive attempts are exactly D, 2D, 4D, …, D·2^(N−2) — N−1 sleeps,
each double the previous, none after the final attempt. -/
theorem c8_backoff_growth (N D : Nat) (responses : Nat → AttemptOutcome)
    (hfail : ∀ n, (responses n).isFailure = true) :
    (WebhookForwarder.forward_webhook responses N D).sleeps
      = (List.range (N - 1)).map (fun i => D * 2 ^ i) ∧
    (WebhookForwarder.forward_webhook responses N D).sleeps.length = N - 1 := by
  obtain ⟨_, _, hb⟩ := forwardLoop_all_fail responses hfail N 0 D
  have hb' : (WebhookForwarder.forward_webhook responses N D).sleeps
      = (List.range (N - 1)).map (fun i => D * 2 ^ i) := hb
  refine ⟨hb', ?_⟩
  rw [hb']
  simp

/-- Witness for C8 at `retry_attempts = 3`, base delay 5: sleeps 5 then 10. -/
theorem c8_backoff_growth_witness :
    (WebhookForwarder.forward_webhook (fun _ => .status 500) 3 5).sleeps
      = (List.range (3 - 1)).map (fun i => 5 * 2 ^ i) ∧
    (WebhookForwarder.forward_webhook (fun _ => .status 500) 3 5).sleeps.length = 3 - 1 :=
  c8_backoff_growth 3 5 (fun _ => .status 500) (fun _ => rfl)

/-- Claim C9, counterexample: a `gitlab` webhook is accepted (202) with its
configured signature header `X-Gitlab-Token` present and verified, yet the
stored `metadata.signature` is `none` — the route reads the hardcoded
`X-Hub-Signature-256` header, not the configured one, so the original
signature value is dropped. -/
theorem c9_counterexample :
    (receive_webhook hmacDemo cfgGitlab (some "id-9") "gitlab" reqGitlab
        "2023-01-01T00:00:00").status = 202 ∧
    reqGitlab.headerGet "X-Gitlab-Token" = some "sha256=ab" ∧
    ((receive_webhook hmacDemo cfgGitlab (some "id-9") "gitlab" reqGitlab
        "2023-01-01T00:00:00").published.map (fun p => p.metadata.signature)) = [none] :=
  ⟨rfl, by decide, rfl⟩

theorem buildHeaders_with_signature (configured : List (String × String))
    (msg : QueueMessage) (s : String)
    (hs : msg.payload.metadata.signature = some s) (hE : s.isEmpty = false) :
    WebhookForwarder.buildHeaders configured msg
      = dictSet
          (dictSet
            (dictSet (mergeInboundHeaders configured msg.payload.metadata.headers)
              "X-Webhook-Relay-Source" msg.payload.metadata.source)
            "X-Webhook-Relay-ID" msg.id)
          "X-Webhook-Relay-Signature" s := by
  unfold WebhookForwarder.buildHeaders
  rw [hs]
  simp [hE]

theorem buildHeaders_no_signature (configured : List (String × String))
    (msg : QueueMessage)
    (hfalsy : msg.payload.metadata.signature = none
      ∨ msg.payload.metadata.signature = some "") :
    WebhookForwarder.buildHeaders configured msg
      = dictSet
          (dictSet (mergeInboundHeaders configured msg.payload.metadata.headers)
            "X-Webhook-Relay-Source" msg.payload.metadata.source)
          "X-Webhook-Relay-ID" msg.id := by
  unfold WebhookForwarder.buildHeaders
  rcases hfalsy with h | h <;> rw [h] <;>
    simp [show ("" : String).isEmpty = true from rfl]

/-- Claim C9 (amended): the metadata built for every accepted webhook stores
the value of the hardcoded `X-Hub-Signature-256` request header (null when
that header is absent — even if the source's configured signature header is
present); at delivery, a truthy stored signature is sent under
`X-Webhook-Relay-Signature`, and a null (or empty) stored signature emits no
such header. -/
theorem c9_amended (hmacSha256Hex : String → List Nat → String)
    (config : CollectorConfig) (sendResult : Option String)
    (source : String) (req : Request) (now : String)
    (configured : List (String × String)) (msg : QueueMessage) :
    (∀ p ∈ (receive_webhook hmacSha256Hex config sendResult source req now).published,
      p.metadata.signature = req.headerGet "X-Hub-Signature-256") ∧
    (∀ s, msg.payload.metadata.signature = some s → s ≠ "" →
      ("X-Webhook-Relay-Signature", s) ∈ WebhookForwarder.buildHeaders configured msg) ∧
    ((msg.payload.metadata.signature = none ∨ msg.payload.metadata.signature = some "") →
      (∀ kv ∈ configured, lowerString kv.1 ≠ "x-webhook-relay-signature") →
      (∀ kv ∈ msg.payload.metadata.headers, lowerString kv.1 ≠ "x-webhook-relay-signature") →
      ∀ v, ("X-Webhook-Relay-Signature", v) ∉ WebhookForwarder.buildHeaders configured msg) := by
  refine ⟨?_, ?_, ?_⟩
  · intro p hp
    unfold receive_webhook at hp
    repeat' split at hp
    all_goals simp_all
  · intro s hs hsne
    have hE : s.isEmpty = false := by
      cases hE : s.isEmpty
      · rfl
      · exact absurd ((String.isEmpty_iff s).mp hE) hsne
    rw [buildHeaders_with_signature configured msg s hs hE]
    exact mem_dictSet_self _ _ _
  · intro hfalsy hcfg hinb v hmem
    rw [buildHeaders_no_signature configured msg hfalsy] at hmem
    rcases mem_dictSet _ _ _ _ hmem with hk | hmem2
    · have hk' : ("X-Webhook-Relay-Signature" : String) = "X-Webhook-Relay-ID" := hk
      exact absurd hk' (by decide)
    rcases mem_dictSet _ _ _ _ hmem2 with hk | hmem3
    · have hk' : ("X-Webhook-Relay-Signature" : String) = "X-Webhook-Relay-Source" := hk
      exact absurd hk' (by decide)
    rcases mem_mergeInboundHeaders _ _ _ hmem3 with h | h
    · refine absurd ?_ (hcfg _ h)
      show lowerString "X-Webhook-Relay-Signature" = "x-webhook-relay-signature"
      decide
    · refine absurd ?_ (hinb _ h)
      show lowerString "X-Webhook-Relay-Signature" = "x-webhook-relay-signature"
      decide

/-- Witness for C9 (amended): a stored truthy signature is emitted under the
relay header. -/
theorem c9_amended_witness :
    ("X-Webhook-Relay-Signature", "sha256=abc123")
      ∈ WebhookForwarder.buildHeaders [("X-Webhook-Relay", "true")] sampleMessage :=
  (c9_amended hmacDemo cfgGitlab (some "id-w9") "gitlab" reqGitlab "2023-01-01T00:00:00"
      [("X-Webhook-Relay", "true")] sampleMessage).2.1 "sha256=abc123" rfl (by decide)

/-- Claim C10 (code bug): the serialization the queue send operation actually
performs — `json.dumps(queue_message.model_dump())` — raises `TypeError` for
every `QueueMessage` (python-mode dump keeps the datetime fields), so the
claimed round trip never begins in the program.  The repository's tests
mandate `model_dump_json` instead ("instead of manual JSON serialization"),
and that intended JSON-mode wire rendering does round-trip: validating it
back (as `receive_message` does before incrementing the attempt counter)
returns the identical message — equal id, equal attempts count, and payload
content deep-equal to the original. -/
theorem c10_serialization_bug (m : QueueMessage) :
    json_dumps m.model_dump_py = none ∧
    QueueMessage.model_validate m.model_dump_json = some m :=
  ⟨json_dumps_queue_py m, QueueMessage.validate_dump_msg m⟩
